import Mathlib

/-!
Verification of the MCP_EXP repository: a chat client (`src/client.py`) that
bridges an OpenAI-style model gateway and an MCP tool server, and a weather
MCP server (`src/weather.py`).

The embedding models the orchestration logic of `MCPClient.process_query`
(client.py, lines 89-192), the connect-time tool listing of
`MCPClient.connect_to_server` (lines 83-87), and the forecast formatting of
`get_forecast` (weather.py, lines 128-172).  External collaborators (the
OpenAI completion endpoint, the MCP session, `json.loads`, the NWS HTTP
API) are modelled as oracle function parameters; a Python exception that
propagates out of `process_query` is modelled as an `Except.error` outcome.
The run is instrumented with a trace recording the final `messages` list,
the snapshot of `messages` sent at each follow-up completion call, the
`session.call_tool` invocations, and the number of `session.list_tools`
calls made inside `process_query`.
-/

set_option autoImplicit false

namespace MCPExp

/-- One entry of `assistant_message.tool_calls` as used by the client:
`tool_call.id`, `tool_call.function.name`, `tool_call.function.arguments`
(the raw, unparsed arguments string). -/
structure ToolCall where
  id : String
  name : String
  arguments : String
deriving DecidableEq, Repr

/-- The part of `completion.choices[0].message` read by the client:
`content` (possibly `None`) and the list of tool calls (`None` and the
empty list are both modelled by `[]`, matching Python truthiness of
`if assistant_message.tool_calls:`). -/
structure Resp where
  content : Option String
  toolCalls : List ToolCall
deriving DecidableEq, Repr

/-- Parsed tool arguments (`json.loads(tool_args)` result): a structured
key-value payload. -/
abbrev Args := List (String × String)

/-- What `session.call_tool` returns on a normal (non-raising) completion:
the MCP `CallToolResult`, carrying `content` and the error flag `isError`.
The client reads only `result.content`. -/
structure CallToolResult where
  content : String
  isError : Bool
deriving DecidableEq, Repr

/-- The message dictionaries appended to the `messages` list by
`process_query`: the initial user message (line 107), the per-call
assistant message carrying `tool_calls` (lines 158-169, `content: None`),
and the tool-result message (lines 170-175). -/
inductive Message where
  | user (content : String)
  | assistant (toolCalls : List ToolCall)
  | tool (toolCallId : String) (name : String) (content : String)
deriving DecidableEq, Repr

/-- A Python exception escaping `process_query`: `json.loads` raising on a
malformed arguments payload (line 150), or `session.call_tool` raising a
transport/protocol error (line 154). -/
inductive PyErr where
  | jsonDecodeError (arguments : String)
  | mcpError (toolName : String)
deriving DecidableEq, Repr

/-- An MCP tool as returned by `session.list_tools()`: name, description,
input schema.  The schema is an opaque payload forwarded without
inspection. -/
structure ToolDescriptor where
  name : String
  description : String
  inputSchema : String
deriving DecidableEq, Repr

/-- The `function` sub-object of the OpenAI function-calling tool format. -/
structure OpenAIFunction where
  name : String
  description : String
  parameters : String
deriving DecidableEq, Repr

/-- One element of the `openai_tools` list built by `process_query`
(client.py, lines 118-126). -/
structure OpenAITool where
  type : String
  function : OpenAIFunction
deriving DecidableEq, Repr

/-- The dictionary appended for one tool in the conversion loop of
client.py lines 118-126: `type: "function"` with name, description and
`inputSchema` passed through (the schema becoming `parameters`). -/
def toModelSchema (t : ToolDescriptor) : OpenAITool :=
  { type := "function"
    function :=
      { name := t.name
        description := t.description
        parameters := t.inputSchema } }

/-- The `openai_tools` list: the conversion loop appends one translated
tool per MCP tool, in order. -/
def openaiToolsOf (tools : List ToolDescriptor) : List OpenAITool :=
  tools.map toModelSchema

/-- The mutable locals of the tool-call loop of `process_query`
(lines 142-185), plus instrumentation: `messages` and `finalText` are the
Python locals; `gatewayCalls` records the `messages` snapshot passed to
each follow-up `openai.chat.completions.create` call (lines 179-182);
`dispatched` records each `session.call_tool` invocation (line 154). -/
structure LoopState where
  messages : List Message
  finalText : List String
  gatewayCalls : List (List Message)
  dispatched : List (String × Args)
deriving DecidableEq, Repr

/-- The `for tool_call in assistant_message.tool_calls:` loop of
client.py lines 143-185.  `parse` models `json.loads` (`none` = raises),
`callTool` models `session.call_tool` (`none` = raises), `create` models
the follow-up `openai.chat.completions.create` call without tools.
Returns the exception that escaped (if any) together with the loop state
at that point. -/
def runCalls (parse : String → Option Args)
    (callTool : String → Args → Option CallToolResult)
    (create : List Message → Resp) :
    List ToolCall → LoopState → Option PyErr × LoopState
  | [], st => (none, st)
  | tc :: rest, st =>
    match parse tc.arguments with
    | none => (some (.jsonDecodeError tc.arguments), st)
    | some args =>
      let st1 : LoopState := { st with dispatched := st.dispatched ++ [(tc.name, args)] }
      match callTool tc.name args with
      | none => (some (.mcpError tc.name), st1)
      | some result =>
        let msgs := st1.messages ++
          [Message.assistant [tc], Message.tool tc.id tc.name result.content]
        let resp := create msgs
        let newText : List String :=
          match resp.content with
          | some c => if c ≠ "" then [c] else []
          | none => []
        runCalls parse callTool create rest
          { st1 with
            messages := msgs
            finalText := st1.finalText ++ newText
            gatewayCalls := st1.gatewayCalls ++ [msgs] }

/-- The instrumented observable behaviour of one `process_query` call:
its outcome (returned string, or the exception that propagated) and the
trace.  `listToolsCalls` counts the `session.list_tools()` calls made by
`process_query` itself (line 113). -/
structure Trace where
  messages : List Message
  gatewayCalls : List (List Message)
  dispatched : List (String × Args)
  listToolsCalls : Nat
deriving DecidableEq, Repr

/-- Result of running `process_query`. -/
structure RunResult where
  outcome : Except PyErr String
  trace : Trace
deriving Repr

/-- `MCPClient.process_query` (client.py, lines 89-192).
`tools` is what `session.list_tools()` returns (fetched afresh at line
113, counted in the trace); `createWithTools` is the first
`openai.chat.completions.create` call with the translated tool schemas
(lines 130-135); `create` is the follow-up call without tools
(lines 179-182); `parse` is `json.loads`; `callTool` is
`session.call_tool`. -/
def processQuery (tools : List ToolDescriptor)
    (createWithTools : List Message → List OpenAITool → Resp)
    (create : List Message → Resp)
    (parse : String → Option Args)
    (callTool : String → Args → Option CallToolResult)
    (query : String) : RunResult :=
  let messages : List Message := [Message.user query]
  let openaiTools := openaiToolsOf tools
  let first := createWithTools messages openaiTools
  if first.toolCalls = [] then
    let finalText : List String :=
      match first.content with
      | some c => if c ≠ "" then [c] else []
      | none => []
    { outcome := .ok (String.intercalate "\n" finalText)
      trace :=
        { messages := messages
          gatewayCalls := []
          dispatched := []
          listToolsCalls := 1 } }
  else
    let (escaped, st) := runCalls parse callTool create first.toolCalls
      { messages := messages, finalText := [], gatewayCalls := [], dispatched := [] }
    { outcome :=
        match escaped with
        | some e => .error e
        | none => .ok (String.intercalate "\n" st.finalText)
      trace :=
        { messages := st.messages
          gatewayCalls := st.gatewayCalls
          dispatched := st.dispatched
          listToolsCalls := 1 } }

/-- One tool call of a round completes without raising exactly when its
arguments parse and `session.call_tool` returns normally. -/
def callOk (parse : String → Option Args)
    (callTool : String → Args → Option CallToolResult) (tc : ToolCall) : Bool :=
  match parse tc.arguments with
  | none => false
  | some args => (callTool tc.name args).isSome

/-- The two messages `process_query` appends for one successfully
processed tool call: the assistant message carrying just that call, then
the tool-result message (empty when the call would raise). -/
def callPair (parse : String → Option Args)
    (callTool : String → Args → Option CallToolResult) (tc : ToolCall) : List Message :=
  match parse tc.arguments with
  | none => []
  | some args =>
    match callTool tc.name args with
    | none => []
    | some result => [Message.assistant [tc], Message.tool tc.id tc.name result.content]

/-- The `session.call_tool` invocation recorded for one tool call (empty
when the arguments fail to parse, since `json.loads` raises first). -/
def dispatchedOf (parse : String → Option Args) (tc : ToolCall) :
    List (String × Args) :=
  match parse tc.arguments with
  | none => []
  | some args => [(tc.name, args)]

/-- The text fragment collected from a follow-up completion call made
with message list `msgs` (client.py, lines 183-185). -/
def textOf (create : List Message → Resp) (msgs : List Message) : List String :=
  match (create msgs).content with
  | some c => if c ≠ "" then [c] else []
  | none => []

/-- The successive `messages` snapshots passed to the follow-up
completion calls, one per tool call, starting from `base`. -/
def snapshots (pair : ToolCall → List Message) :
    List Message → List ToolCall → List (List Message)
  | _, [] => []
  | base, tc :: rest => (base ++ pair tc) :: snapshots pair (base ++ pair tc) rest

/-- The tool-call lists of the assistant messages of a message list, in
order. -/
def assistantMessages (msgs : List Message) : List (List ToolCall) :=
  msgs.filterMap (fun m =>
    match m with
    | Message.assistant tcs => some tcs
    | _ => none)

/-- The `tool_call_id` fields of the tool-result messages of a message
list, in order. -/
def toolResultIds (msgs : List Message) : List String :=
  msgs.filterMap (fun m =>
    match m with
    | Message.tool cid _ _ => some cid
    | _ => none)

/-- Whether a message list contains a tool-result message for `callId`. -/
def hasResultFor (msgs : List Message) (callId : String) : Bool :=
  msgs.any (fun m =>
    match m with
    | Message.tool cid _ _ => cid == callId
    | _ => false)

/-- Every tool-call request of every assistant message is followed,
later in the list, by a tool-result message with the same call id. -/
def balanced : List Message → Bool
  | [] => true
  | Message.assistant tcs :: rest =>
    tcs.all (fun tc => hasResultFor rest tc.id) && balanced rest
  | _ :: rest => balanced rest

/-- The first completion response of a `process_query` run: the model is
called with the seeded user message and the translated tool schemas. -/
def firstResp (tools : List ToolDescriptor)
    (createWithTools : List Message → List OpenAITool → Resp)
    (query : String) : Resp :=
  createWithTools [Message.user query] (openaiToolsOf tools)

/-- The connect-time tool listing of `MCPClient.connect_to_server`
(client.py, lines 83-87): one `session.list_tools()` call, and the tool
names printed. -/
structure ConnectTrace where
  listToolsCalls : Nat
  printedToolNames : List String
deriving DecidableEq, Repr

/-- `connect_to_server`, restricted to its observable use of the tool
list (lines 83-87). -/
def connectToServer (tools : List ToolDescriptor) : ConnectTrace :=
  { listToolsCalls := 1
    printedToolNames := tools.map (fun t => t.name) }

end MCPExp

namespace Weather

/-- One forecast period dictionary, with the keys read by `get_forecast`
(weather.py, lines 163-169). -/
structure Period where
  name : String
  temperature : Int
  temperatureUnit : String
  windSpeed : String
  windDirection : String
  detailedForecast : String
deriving DecidableEq, Repr

/-- `points_data["properties"]`, restricted to the `forecast` URL read at
weather.py line 154. -/
structure PointsProperties where
  forecast : String
deriving DecidableEq, Repr

/-- The `/points/{lat},{lon}` response. -/
structure PointsData where
  properties : PointsProperties
deriving DecidableEq, Repr

/-- `forecast_data["properties"]`, restricted to `periods` (line 161). -/
structure ForecastProperties where
  periods : List Period
deriving DecidableEq, Repr

/-- The forecast-endpoint response. -/
structure ForecastData where
  properties : ForecastProperties
deriving DecidableEq, Repr

/-- The f-string of weather.py lines 164-169 formatting one period. -/
def formatPeriod (p : Period) : String :=
  "\n" ++ p.name ++ ":\nTemperature: " ++ toString p.temperature ++ "°"
    ++ p.temperatureUnit ++ "\nWind: " ++ p.windSpeed ++ " " ++ p.windDirection
    ++ "\nForecast: " ++ p.detailedForecast ++ "\n"

/-- `get_forecast` (weather.py, lines 128-172), with the two
`make_nws_request` calls modelled as oracles: `pointsResult` is the
response for the points URL of the requested coordinates, and
`fetchForecast` maps the forecast URL taken from that response to the
forecast response (`none` = request failed). -/
def get_forecast (pointsResult : Option PointsData)
    (fetchForecast : String → Option ForecastData) : String :=
  match pointsResult with
  | none => "Unable to fetch forecast data for this location."
  | some pointsData =>
    match fetchForecast pointsData.properties.forecast with
    | none => "Unable to fetch detailed forecast."
    | some forecastData =>
      let periods := forecastData.properties.periods
      let forecasts := (periods.take 5).foldl (fun acc p => acc ++ [formatPeriod p]) []
      String.intercalate "\n---\n" forecasts

end Weather

namespace MCPExp

/-- Concrete fixture: a first tool call of a round. -/
def tcA : ToolCall := { id := "call-1", name := "get_alerts", arguments := "argsA" }

/-- Concrete fixture: a second tool call of the same round. -/
def tcB : ToolCall := { id := "call-2", name := "get_forecast", arguments := "argsB" }

/-- Concrete fixture: a tool call whose arguments payload is malformed
for the parse oracle `parse0`. -/
def tcBad : ToolCall := { id := "call-3", name := "get_alerts", arguments := "badjson" }

/-- A `json.loads` oracle that fails exactly on the payload `"badjson"`. -/
def parse0 : String → Option Args :=
  fun s => if s = "badjson" then none else some [("q", s)]

/-- A `session.call_tool` oracle that always returns a successful
result. -/
def callTool0 : String → Args → Option CallToolResult :=
  fun n _ => some { content := "result-" ++ n, isError := false }

/-- A `session.call_tool` oracle whose `get_alerts` reports an
application-level failure (`isError = true`, as FastMCP reports when the
tool raises) while other tools succeed. -/
def callToolErr : String → Args → Option CallToolResult :=
  fun n _ =>
    if n = "get_alerts" then some { content := "tool failed", isError := true }
    else some { content := "result-" ++ n, isError := false }

/-- A follow-up completion oracle returning a fixed text. -/
def create0 : List Message → Resp :=
  fun _ => { content := some "done", toolCalls := [] }

/-- A first-call oracle whose response requests two tool calls. -/
def cwtTwo : List Message → List OpenAITool → Resp :=
  fun _ _ => { content := none, toolCalls := [tcA, tcB] }

/-- A first-call oracle whose response requests a malformed-arguments
call followed by a well-formed one. -/
def cwtBad : List Message → List OpenAITool → Resp :=
  fun _ _ => { content := none, toolCalls := [tcBad, tcB] }

/-- A first-call oracle whose response requests a well-formed call
followed by a malformed-arguments one. -/
def cwtBad2 : List Message → List OpenAITool → Resp :=
  fun _ _ => { content := none, toolCalls := [tcA, tcBad] }

/-- A first-call oracle whose response is plain text with no tool
calls. -/
def cwtText : List Message → List OpenAITool → Resp :=
  fun _ _ => { content := some "hello", toolCalls := [] }

/-- A first-call oracle whose response has neither tool calls nor
content. -/
def cwtEmpty : List Message → List OpenAITool → Resp :=
  fun _ _ => { content := none, toolCalls := [] }

/-- Concrete fixture: a tool descriptor. -/
def sampleTool : ToolDescriptor :=
  { name := "get_alerts"
    description := "Fetch active weather alerts for a given US state"
    inputSchema := "schema-get-alerts" }

end MCPExp

namespace Weather

/-- Concrete fixture: one forecast period named `n`. -/
def samplePeriod (n : String) : Period :=
  { name := n
    temperature := 61
    temperatureUnit := "F"
    windSpeed := "5 mph"
    windDirection := "NW"
    detailedForecast := "Sunny" }

/-- Concrete fixture: a forecast response with seven periods. -/
def sampleForecast : ForecastData :=
  { properties :=
      { periods := [samplePeriod "P1", samplePeriod "P2", samplePeriod "P3",
          samplePeriod "P4", samplePeriod "P5", samplePeriod "P6",
          samplePeriod "P7"] } }

/-- Concrete fixture: a points response carrying a forecast URL. -/
def samplePoints : PointsData :=
  { properties := { forecast := "gridpoint-forecast-url" } }

end Weather

namespace MCPExp

theorem snapshots_length (pair : ToolCall → List Message) :
    ∀ (calls : List ToolCall) (base : List Message),
      (snapshots pair base calls).length = calls.length
  | [], _ => rfl
  | _ :: rest, base => by
    simp [snapshots, snapshots_length pair rest]

theorem snapshots_get? (pair : ToolCall → List Message) :
    ∀ (calls : List ToolCall) (base : List Message) (i : Nat),
      (snapshots pair base calls).get? i =
        if i < calls.length then
          some (base ++ (calls.take (i + 1)).flatMap pair)
        else none
  | [], base, i => by simp [snapshots]
  | tc :: rest, base, 0 => by simp [snapshots]
  | tc :: rest, base, i + 1 => by
    simp only [snapshots, List.get?_cons_succ, snapshots_get? pair rest (base ++ pair tc) i,
      List.length_cons, List.take_succ_cons, List.flatMap_cons]
    by_cases h : i < rest.length
    · simp [h, Nat.succ_lt_succ h, List.append_assoc]
    · simp [h, fun hc => h (Nat.lt_of_succ_lt_succ hc)]

theorem runCalls_ok_append (parse : String → Option Args)
    (callTool : String → Args → Option CallToolResult)
    (create : List Message → Resp) :
    ∀ (xs ys : List ToolCall) (st : LoopState),
      (∀ tc ∈ xs, callOk parse callTool tc = true) →
      runCalls parse callTool create (xs ++ ys) st =
        runCalls parse callTool create ys
          { messages := st.messages ++ xs.flatMap (callPair parse callTool)
            finalText := st.finalText ++
              (snapshots (callPair parse callTool) st.messages xs).flatMap (textOf create)
            gatewayCalls := st.gatewayCalls ++
              snapshots (callPair parse callTool) st.messages xs
            dispatched := st.dispatched ++ xs.flatMap (dispatchedOf parse) }
  | [], ys, st, _ => by simp [snapshots]
  | tc :: rest, ys, st, h => by
    have htc : callOk parse callTool tc = true := h tc (List.mem_cons_self tc rest)
    cases hp : parse tc.arguments with
    | none => simp [callOk, hp] at htc
    | some args =>
      cases hc : callTool tc.name args with
      | none => simp [callOk, hp, hc] at htc
      | some result =>
        have hrest : ∀ tc' ∈ rest, callOk parse callTool tc' = true :=
          fun tc' hm => h tc' (List.mem_cons_of_mem tc hm)
        have hpair : callPair parse callTool tc =
            [Message.assistant [tc], Message.tool tc.id tc.name result.content] := by
          simp [callPair, hp, hc]
        have hdisp : dispatchedOf parse tc = [(tc.name, args)] := by
          simp [dispatchedOf, hp]
        simp only [List.cons_append, runCalls, hp, hc, List.append_eq]
        rw [runCalls_ok_append parse callTool create rest ys _ hrest]
        simp [snapshots, hpair, hdisp, textOf, List.append_assoc]

/-- Final state of a round in which every tool call completes without
raising. -/
theorem runCalls_ok (parse : String → Option Args)
    (callTool : String → Args → Option CallToolResult)
    (create : List Message → Resp) (calls : List ToolCall) (st : LoopState)
    (h : ∀ tc ∈ calls, callOk parse callTool tc = true) :
    runCalls parse callTool create calls st =
      (none,
        { messages := st.messages ++ calls.flatMap (callPair parse callTool)
          finalText := st.finalText ++
            (snapshots (callPair parse callTool) st.messages calls).flatMap (textOf create)
          gatewayCalls := st.gatewayCalls ++
            snapshots (callPair parse callTool) st.messages calls
          dispatched := st.dispatched ++ calls.flatMap (dispatchedOf parse) }) := by
  have h1 := runCalls_ok_append parse callTool create calls [] st h
  rw [List.append_nil] at h1
  rw [h1]
  rfl

/-- A tool call whose arguments fail to parse makes `json.loads` raise:
the loop stops at once, in the state it had before the call. -/
theorem runCalls_parse_fail (parse : String → Option Args)
    (callTool : String → Args → Option CallToolResult)
    (create : List Message → Resp) (tc : ToolCall) (rest : List ToolCall)
    (st : LoopState) (h : parse tc.arguments = none) :
    runCalls parse callTool create (tc :: rest) st =
      (some (PyErr.jsonDecodeError tc.arguments), st) := by
  simp [runCalls, h]


/-- Characterization of `process_query` when the first response has no
tool calls. -/
theorem processQuery_noToolCalls (tools : List ToolDescriptor)
    (createWithTools : List Message → List OpenAITool → Resp)
    (create : List Message → Resp) (parse : String → Option Args)
    (callTool : String → Args → Option CallToolResult) (query : String)
    (he : (firstResp tools createWithTools query).toolCalls = []) :
    processQuery tools createWithTools create parse callTool query =
      { outcome := .ok (String.intercalate "\n"
          (match (firstResp tools createWithTools query).content with
            | some c => if c ≠ "" then [c] else []
            | none => []))
        trace :=
          { messages := [Message.user query]
            gatewayCalls := []
            dispatched := []
            listToolsCalls := 1 } } := by
  unfold processQuery
  unfold firstResp at he
  rw [if_pos he]
  rfl

/-- Characterization of `process_query` when the first response has tool
calls and every one of them completes without raising. -/
theorem processQuery_ok (tools : List ToolDescriptor)
    (createWithTools : List Message → List OpenAITool → Resp)
    (create : List Message → Resp) (parse : String → Option Args)
    (callTool : String → Args → Option CallToolResult) (query : String)
    (hne : (firstResp tools createWithTools query).toolCalls ≠ [])
    (hok : ∀ tc ∈ (firstResp tools createWithTools query).toolCalls,
      callOk parse callTool tc = true) :
    processQuery tools createWithTools create parse callTool query =
      { outcome := .ok (String.intercalate "\n"
          ((snapshots (callPair parse callTool) [Message.user query]
              (firstResp tools createWithTools query).toolCalls).flatMap (textOf create)))
        trace :=
          { messages := Message.user query ::
              (firstResp tools createWithTools query).toolCalls.flatMap
                (callPair parse callTool)
            gatewayCalls := snapshots (callPair parse callTool) [Message.user query]
              (firstResp tools createWithTools query).toolCalls
            dispatched := (firstResp tools createWithTools query).toolCalls.flatMap
              (dispatchedOf parse)
            listToolsCalls := 1 } } := by
  unfold processQuery
  unfold firstResp at hne hok
  rw [if_neg hne]
  rw [runCalls_ok parse callTool create _ _ hok]
  rfl

/-- Characterization of `process_query` when some tool call's arguments
fail to parse and every earlier call of the round succeeded: the
exception propagates, the state keeps only the earlier calls' messages,
and neither the failing call nor any later call is dispatched. -/
theorem processQuery_parse_fail (tools : List ToolDescriptor)
    (createWithTools : List Message → List OpenAITool → Resp)
    (create : List Message → Resp) (parse : String → Option Args)
    (callTool : String → Args → Option CallToolResult) (query : String)
    (pre : List ToolCall) (bad : ToolCall) (rest : List ToolCall)
    (hsplit : (firstResp tools createWithTools query).toolCalls = pre ++ bad :: rest)
    (hok : ∀ tc ∈ pre, callOk parse callTool tc = true)
    (hbad : parse bad.arguments = none) :
    processQuery tools createWithTools create parse callTool query =
      { outcome := .error (PyErr.jsonDecodeError bad.arguments)
        trace :=
          { messages := Message.user query :: pre.flatMap (callPair parse callTool)
            gatewayCalls := snapshots (callPair parse callTool) [Message.user query] pre
            dispatched := pre.flatMap (dispatchedOf parse)
            listToolsCalls := 1 } } := by
  have hne : (firstResp tools createWithTools query).toolCalls ≠ [] := by
    rw [hsplit]
    exact List.append_ne_nil_of_right_ne_nil pre (List.cons_ne_nil bad rest)
  unfold processQuery
  unfold firstResp at hne hsplit
  rw [if_neg hne]
  rw [hsplit]
  rw [runCalls_ok_append parse callTool create pre (bad :: rest) _ hok]
  rw [runCalls_parse_fail parse callTool create bad rest _ hbad]
  rfl

theorem hasResultFor_append_left (msgs ys : List Message) (callId : String)
    (h : hasResultFor msgs callId = true) :
    hasResultFor (msgs ++ ys) callId = true := by
  unfold hasResultFor at h ⊢
  rw [List.any_append, h, Bool.true_or]

theorem balanced_append : ∀ (xs ys : List Message),
    balanced xs = true → balanced ys = true → balanced (xs ++ ys) = true
  | [], _, _, hy => hy
  | Message.user c :: rest, ys, hx, hy => by
    simp only [balanced] at hx
    simpa only [List.cons_append, balanced] using balanced_append rest ys hx hy
  | Message.tool cid n c :: rest, ys, hx, hy => by
    simp only [balanced] at hx
    simpa only [List.cons_append, balanced] using balanced_append rest ys hx hy
  | Message.assistant tcs :: rest, ys, hx, hy => by
    simp only [balanced, Bool.and_eq_true, List.all_eq_true] at hx
    simp only [List.cons_append, balanced, Bool.and_eq_true, List.all_eq_true]
    exact ⟨fun tc hm => hasResultFor_append_left rest ys tc.id (hx.1 tc hm),
      balanced_append rest ys hx.2 hy⟩

theorem balanced_callPair (parse : String → Option Args)
    (callTool : String → Args → Option CallToolResult) (tc : ToolCall)
    (h : callOk parse callTool tc = true) :
    balanced (callPair parse callTool tc) = true := by
  unfold callOk at h
  cases hp : parse tc.arguments with
  | none => rw [hp] at h; simp at h
  | some args =>
    simp only [hp] at h
    cases hc : callTool tc.name args with
    | none => rw [hc] at h; simp at h
    | some r => simp [callPair, hp, hc, balanced, hasResultFor]

theorem balanced_snapshots (parse : String → Option Args)
    (callTool : String → Args → Option CallToolResult) :
    ∀ (calls : List ToolCall) (base : List Message),
      (∀ tc ∈ calls, callOk parse callTool tc = true) →
      balanced base = true →
      ∀ s ∈ snapshots (callPair parse callTool) base calls, balanced s = true
  | [], _, _, _, s, hs => by simp [snapshots] at hs
  | tc :: rest, base, h, hb, s, hs => by
    have hbase : balanced (base ++ callPair parse callTool tc) = true :=
      balanced_append base _ hb
        (balanced_callPair parse callTool tc (h tc (List.mem_cons_self tc rest)))
    rw [snapshots] at hs
    rcases List.mem_cons.mp hs with h1 | h2
    · rw [h1]; exact hbase
    · exact balanced_snapshots parse callTool rest (base ++ callPair parse callTool tc)
        (fun tc' hm => h tc' (List.mem_cons_of_mem tc hm)) hbase s h2

theorem assistantMessages_flatMap (parse : String → Option Args)
    (callTool : String → Args → Option CallToolResult) :
    ∀ (calls : List ToolCall),
      (∀ tc ∈ calls, callOk parse callTool tc = true) →
      assistantMessages (calls.flatMap (callPair parse callTool)) =
        calls.map (fun tc => [tc])
  | [], _ => rfl
  | tc :: rest, h => by
    have htc : callOk parse callTool tc = true := h tc (List.mem_cons_self tc rest)
    unfold callOk at htc
    cases hp : parse tc.arguments with
    | none => rw [hp] at htc; simp at htc
    | some args =>
      simp only [hp] at htc
      cases hc : callTool tc.name args with
      | none => rw [hc] at htc; simp at htc
      | some r =>
        have hrec := assistantMessages_flatMap parse callTool rest
          (fun tc' hm => h tc' (List.mem_cons_of_mem tc hm))
        rw [List.flatMap_cons, List.map_cons]
        simp only [assistantMessages] at hrec ⊢
        simp [callPair, hp, hc, hrec]

theorem toolResultIds_flatMap (parse : String → Option Args)
    (callTool : String → Args → Option CallToolResult) :
    ∀ (calls : List ToolCall),
      (∀ tc ∈ calls, callOk parse callTool tc = true) →
      toolResultIds (calls.flatMap (callPair parse callTool)) =
        calls.map (fun tc => tc.id)
  | [], _ => rfl
  | tc :: rest, h => by
    have htc : callOk parse callTool tc = true := h tc (List.mem_cons_self tc rest)
    unfold callOk at htc
    cases hp : parse tc.arguments with
    | none => rw [hp] at htc; simp at htc
    | some args =>
      simp only [hp] at htc
      cases hc : callTool tc.name args with
      | none => rw [hc] at htc; simp at htc
      | some r =>
        have hrec := toolResultIds_flatMap parse callTool rest
          (fun tc' hm => h tc' (List.mem_cons_of_mem tc hm))
        rw [List.flatMap_cons, List.map_cons]
        simp only [toolResultIds] at hrec ⊢
        simp [callPair, hp, hc, hrec]

theorem toolResultIds_user_cons (q : String) (msgs : List Message) :
    toolResultIds (Message.user q :: msgs) = toolResultIds msgs := by
  simp [toolResultIds]

theorem assistantMessages_user_cons (q : String) (msgs : List Message) :
    assistantMessages (Message.user q :: msgs) = assistantMessages msgs := by
  simp [assistantMessages]

/-- Every `session.list_tools` use inside a single `process_query` run:
the fetch at client.py line 113 happens exactly once, on every path. -/
theorem processQuery_listTools (tools : List ToolDescriptor)
    (createWithTools : List Message → List OpenAITool → Resp)
    (create : List Message → Resp) (parse : String → Option Args)
    (callTool : String → Args → Option CallToolResult) (query : String) :
    (processQuery tools createWithTools create parse callTool query).trace.listToolsCalls = 1 := by
  rcases hr : runCalls parse callTool create
      (createWithTools [Message.user query] (openaiToolsOf tools)).toolCalls
      { messages := [Message.user query], finalText := [], gatewayCalls := [],
        dispatched := [] } with ⟨e, st⟩
  simp only [processQuery, hr]
  split
  · rfl
  · rfl

theorem intercalate_singleton (s c : String) : String.intercalate s [c] = c := rfl

theorem intercalate_nil (s : String) : String.intercalate s [] = "" := rfl

/-- C6: for every query whose first model response contains zero tool
calls, `process_query` returns exactly the text of that first completion
response, verbatim. -/
theorem c6_no_tool_calls_passthrough (tools : List ToolDescriptor)
    (createWithTools : List Message → List OpenAITool → Resp)
    (create : List Message → Resp) (parse : String → Option Args)
    (callTool : String → Args → Option CallToolResult) (query : String)
    (c : String)
    (hempty : (firstResp tools createWithTools query).toolCalls = [])
    (hc : (firstResp tools createWithTools query).content = some c) :
    (processQuery tools createWithTools create parse callTool query).outcome =
      Except.ok c := by
  rw [processQuery_noToolCalls tools createWithTools create parse callTool query hempty]
  rcases eq_or_ne c "" with h | h
  · subst h
    simp [hc, intercalate_nil]
  · simp [hc, h, intercalate_singleton]

/-- C6 witness: a concrete run whose first response is the plain text
`"hello"` with no tool calls returns exactly `"hello"`. -/
theorem c6_witness :
    (processQuery [sampleTool] cwtText create0 parse0 callTool0 "hi").outcome =
      Except.ok "hello" :=
  c6_no_tool_calls_passthrough [sampleTool] cwtText create0 parse0 callTool0 "hi"
    "hello" rfl rfl

/-- C9: for every query whose first model response has no tool calls and
no text content (content absent or empty), `process_query` returns the
empty string rather than failing or returning a null value. -/
theorem c9_empty_content_returns_empty (tools : List ToolDescriptor)
    (createWithTools : List Message → List OpenAITool → Resp)
    (create : List Message → Resp) (parse : String → Option Args)
    (callTool : String → Args → Option CallToolResult) (query : String)
    (hempty : (firstResp tools createWithTools query).toolCalls = [])
    (hc : (firstResp tools createWithTools query).content = none ∨
      (firstResp tools createWithTools query).content = some "") :
    (processQuery tools createWithTools create parse callTool query).outcome =
      Except.ok "" := by
  rw [processQuery_noToolCalls tools createWithTools create parse callTool query hempty]
  rcases hc with h | h <;> simp [h, intercalate_nil]

/-- C9 witness: a concrete run whose first response has no tool calls and
`content = None` returns `""`. -/
theorem c9_witness :
    (processQuery [sampleTool] cwtEmpty create0 parse0 callTool0 "hi").outcome =
      Except.ok "" :=
  c9_empty_content_returns_empty [sampleTool] cwtEmpty create0 parse0 callTool0 "hi"
    rfl (Or.inl rfl)

/-- C7: the translation of a `ToolDescriptor` into the OpenAI function
schema is pure and deterministic: it passes name, description and
input schema through unchanged (the schema becoming the `parameters`
field, with no validation), and two applications to descriptors with the
same fields yield structurally identical schema objects. -/
theorem c7_schema_translation_pure (t u : ToolDescriptor)
    (hname : t.name = u.name) (hdesc : t.description = u.description)
    (hschema : t.inputSchema = u.inputSchema) :
    (toModelSchema t).type = "function" ∧
    (toModelSchema t).function.name = t.name ∧
    (toModelSchema t).function.description = t.description ∧
    (toModelSchema t).function.parameters = t.inputSchema ∧
    toModelSchema t = toModelSchema u := by
  refine ⟨rfl, rfl, rfl, rfl, ?_⟩
  simp [toModelSchema, hname, hdesc, hschema]

/-- C7 witness: the translation of the concrete descriptor, twice. -/
theorem c7_witness :
    (toModelSchema sampleTool).type = "function" ∧
    (toModelSchema sampleTool).function.name = sampleTool.name ∧
    (toModelSchema sampleTool).function.description = sampleTool.description ∧
    (toModelSchema sampleTool).function.parameters = sampleTool.inputSchema ∧
    toModelSchema sampleTool = toModelSchema sampleTool :=
  c7_schema_translation_pure sampleTool sampleTool rfl rfl rfl

/-- C8 counterexample: the claim says `session.list_tools` is never
invoked again after connect, in particular not while processing a query;
but a concrete `process_query` run performs one `list_tools` fetch
(client.py, line 113). -/
theorem c8_counterexample :
    (processQuery [sampleTool] cwtText create0 parse0 callTool0 "hi").trace.listToolsCalls = 1 ∧
    (processQuery [sampleTool] cwtText create0 parse0 callTool0 "hi").trace.listToolsCalls ≠ 0 := by
  constructor <;> decide

/-- C8 (amended): the tool list is fetched from the transport once at
connect time (client.py, line 85) and fetched again at the start of every
`process_query` run (line 113); it is not cached for the session. -/
theorem c8_fetch_per_query (tools : List ToolDescriptor)
    (createWithTools : List Message → List OpenAITool → Resp)
    (create : List Message → Resp) (parse : String → Option Args)
    (callTool : String → Args → Option CallToolResult) (query : String) :
    (connectToServer tools).listToolsCalls = 1 ∧
    (processQuery tools createWithTools create parse callTool query).trace.listToolsCalls = 1 :=
  ⟨rfl, processQuery_listTools tools createWithTools create parse callTool query⟩

/-- C1 counterexample: on a concrete run whose first response contains
two tool calls (both succeeding), the code issues two follow-up
completion calls, not exactly one, and the first of them is issued with a
conversation that does not yet contain the second call's result. -/
theorem c1_counterexample :
    (processQuery [sampleTool] cwtTwo create0 parse0 callTool0 "hi").trace.gatewayCalls.length = 2 ∧
    (processQuery [sampleTool] cwtTwo create0 parse0 callTool0 "hi").trace.gatewayCalls.get? 0 =
      some [Message.user "hi", Message.assistant [tcA],
        Message.tool "call-1" "get_alerts" "result-get_alerts"] := by
  constructor <;> decide

/-- C1 (amended): for every query whose first response has tool calls,
all of which complete without raising, `process_query` issues one
follow-up completion call per tool call (so exactly one only for
single-call rounds); the i-th follow-up is issued with the conversation
extended by exactly the first i+1 calls' assistant/tool message pairs,
hence after those calls were dispatched and their results appended and
before any later call is dispatched. -/
theorem c1_one_follow_up_per_call (tools : List ToolDescriptor)
    (createWithTools : List Message → List OpenAITool → Resp)
    (create : List Message → Resp) (parse : String → Option Args)
    (callTool : String → Args → Option CallToolResult) (query : String)
    (hne : (firstResp tools createWithTools query).toolCalls ≠ [])
    (hok : ∀ tc ∈ (firstResp tools createWithTools query).toolCalls,
      callOk parse callTool tc = true) :
    (processQuery tools createWithTools create parse callTool query).trace.gatewayCalls.length =
      (firstResp tools createWithTools query).toolCalls.length ∧
    ∀ i : Nat, i < (firstResp tools createWithTools query).toolCalls.length →
      (processQuery tools createWithTools create parse callTool query).trace.gatewayCalls.get? i =
        some ([Message.user query] ++
          (((firstResp tools createWithTools query).toolCalls.take (i + 1)).flatMap
            (callPair parse callTool))) := by
  rw [processQuery_ok tools createWithTools create parse callTool query hne hok]
  constructor
  · exact snapshots_length _ _ _
  · intro i hi
    show (snapshots (callPair parse callTool) [Message.user query]
      (firstResp tools createWithTools query).toolCalls).get? i = _
    rw [snapshots_get?, if_pos hi]

/-- C1 witness: the amended statement applied to the concrete two-call
run. -/
theorem c1_witness :
    (processQuery [sampleTool] cwtTwo create0 parse0 callTool0 "hi").trace.gatewayCalls.length =
      (firstResp [sampleTool] cwtTwo "hi").toolCalls.length ∧
    (processQuery [sampleTool] cwtTwo create0 parse0 callTool0 "hi").trace.gatewayCalls.get? 1 =
      some ([Message.user "hi"] ++
        (((firstResp [sampleTool] cwtTwo "hi").toolCalls.take 2).flatMap
          (callPair parse0 callTool0))) := by
  have h := c1_one_follow_up_per_call [sampleTool] cwtTwo create0 parse0 callTool0 "hi"
    (by decide) (by decide)
  exact ⟨h.1, h.2 1 (by decide)⟩

/-- C4 counterexample: on a concrete run whose first response contains
two tool calls, two assistant messages are appended (one per call, each
carrying a single-element tool-call list), not exactly one carrying the
whole round's sequence. -/
theorem c4_counterexample :
    assistantMessages
      (processQuery [sampleTool] cwtTwo create0 parse0 callTool0 "hi").trace.messages =
      [[tcA], [tcB]] ∧
    (assistantMessages
      (processQuery [sampleTool] cwtTwo create0 parse0 callTool0 "hi").trace.messages).length ≠ 1 := by
  constructor <;> decide

/-- C4 (amended): for every round whose tool calls all complete without
raising, `process_query` appends one assistant message per tool call, in
order, each carrying exactly that one `ToolCallRequest` verbatim (its
call id, tool name and raw arguments string preserved). -/
theorem c4_assistant_message_per_call (tools : List ToolDescriptor)
    (createWithTools : List Message → List OpenAITool → Resp)
    (create : List Message → Resp) (parse : String → Option Args)
    (callTool : String → Args → Option CallToolResult) (query : String)
    (hne : (firstResp tools createWithTools query).toolCalls ≠ [])
    (hok : ∀ tc ∈ (firstResp tools createWithTools query).toolCalls,
      callOk parse callTool tc = true) :
    assistantMessages
      (processQuery tools createWithTools create parse callTool query).trace.messages =
      (firstResp tools createWithTools query).toolCalls.map (fun tc => [tc]) := by
  rw [processQuery_ok tools createWithTools create parse callTool query hne hok]
  show assistantMessages (Message.user query ::
    (firstResp tools createWithTools query).toolCalls.flatMap (callPair parse callTool)) = _
  rw [assistantMessages_user_cons]
  exact assistantMessages_flatMap parse callTool _ hok

/-- C4 witness: the amended statement applied to the concrete two-call
run. -/
theorem c4_witness :
    assistantMessages
      (processQuery [sampleTool] cwtTwo create0 parse0 callTool0 "hi").trace.messages =
      (firstResp [sampleTool] cwtTwo "hi").toolCalls.map (fun tc => [tc]) :=
  c4_assistant_message_per_call [sampleTool] cwtTwo create0 parse0 callTool0 "hi"
    (by decide) (by decide)

/-- C5 counterexample: on a concrete round containing two tool calls
whose second call's arguments payload is malformed, only one tool-result
message is appended before `json.loads` raises and the round aborts, so
a round containing N tool calls does not always append exactly N
tool-result messages. -/
theorem c5_counterexample :
    (firstResp [sampleTool] cwtBad2 "hi").toolCalls.length = 2 ∧
    (toolResultIds
      (processQuery [sampleTool] cwtBad2 create0 parse0 callTool0 "hi").trace.messages).length = 1 ∧
    toolResultIds
      (processQuery [sampleTool] cwtBad2 create0 parse0 callTool0 "hi").trace.messages =
      ["call-1"] := by
  refine ⟨by decide, by decide, by decide⟩

/-- C5 (amended): for every round whose N tool calls all complete
without raising, exactly N tool-result messages are appended, in the
order of the corresponding requests and with matching call ids; and in
every conversation sent to a follow-up completion call, every appended
tool-call request is already followed by a tool-result message with the
same call id. -/
theorem c5_results_match_requests (tools : List ToolDescriptor)
    (createWithTools : List Message → List OpenAITool → Resp)
    (create : List Message → Resp) (parse : String → Option Args)
    (callTool : String → Args → Option CallToolResult) (query : String)
    (hne : (firstResp tools createWithTools query).toolCalls ≠ [])
    (hok : ∀ tc ∈ (firstResp tools createWithTools query).toolCalls,
      callOk parse callTool tc = true) :
    toolResultIds
      (processQuery tools createWithTools create parse callTool query).trace.messages =
      (firstResp tools createWithTools query).toolCalls.map (fun tc => tc.id) ∧
    ∀ s ∈ (processQuery tools createWithTools create parse callTool query).trace.gatewayCalls,
      balanced s = true := by
  rw [processQuery_ok tools createWithTools create parse callTool query hne hok]
  constructor
  · show toolResultIds (Message.user query ::
      (firstResp tools createWithTools query).toolCalls.flatMap (callPair parse callTool)) = _
    rw [toolResultIds_user_cons]
    exact toolResultIds_flatMap parse callTool _ hok
  · intro s hs
    exact balanced_snapshots parse callTool _ [Message.user query] hok rfl s hs

/-- C5 witness: the theorem applied to the concrete two-call run,
instantiating the balance invariant at the first follow-up snapshot. -/
theorem c5_witness :
    toolResultIds
      (processQuery [sampleTool] cwtTwo create0 parse0 callTool0 "hi").trace.messages =
      (firstResp [sampleTool] cwtTwo "hi").toolCalls.map (fun tc => tc.id) ∧
    balanced [Message.user "hi", Message.assistant [tcA],
      Message.tool "call-1" "get_alerts" "result-get_alerts"] = true := by
  have h := c5_results_match_requests [sampleTool] cwtTwo create0 parse0 callTool0 "hi"
    (by decide) (by decide)
  exact ⟨h.1, h.2 _ (by decide)⟩

/-- C2 counterexample: on a concrete run whose first response contains a
malformed-arguments call followed by a well-formed one, the query aborts
with the raised decode error: no tool-result message (error-flagged or
otherwise) is appended, and the remaining call is never dispatched. -/
theorem c2_counterexample :
    (processQuery [sampleTool] cwtBad create0 parse0 callTool0 "hi").outcome =
      Except.error (PyErr.jsonDecodeError "badjson") ∧
    (processQuery [sampleTool] cwtBad create0 parse0 callTool0 "hi").trace.messages =
      [Message.user "hi"] ∧
    (processQuery [sampleTool] cwtBad create0 parse0 callTool0 "hi").trace.dispatched = [] := by
  refine ⟨rfl, by decide, by decide⟩

/-- C2 (amended): when a tool call's arguments payload fails to parse,
`json.loads` raises and the exception propagates out of `process_query`,
aborting the query: no tool-result message is appended for the failing
call (only the earlier calls of the round have results), and neither the
failing call nor any later call of the round is dispatched. -/
theorem c2_parse_failure_aborts (tools : List ToolDescriptor)
    (createWithTools : List Message → List OpenAITool → Resp)
    (create : List Message → Resp) (parse : String → Option Args)
    (callTool : String → Args → Option CallToolResult) (query : String)
    (pre : List ToolCall) (bad : ToolCall) (rest : List ToolCall)
    (hsplit : (firstResp tools createWithTools query).toolCalls = pre ++ bad :: rest)
    (hok : ∀ tc ∈ pre, callOk parse callTool tc = true)
    (hbad : parse bad.arguments = none) :
    (processQuery tools createWithTools create parse callTool query).outcome =
      Except.error (PyErr.jsonDecodeError bad.arguments) ∧
    toolResultIds
      (processQuery tools createWithTools create parse callTool query).trace.messages =
      pre.map (fun tc => tc.id) ∧
    (processQuery tools createWithTools create parse callTool query).trace.dispatched =
      pre.flatMap (dispatchedOf parse) := by
  rw [processQuery_parse_fail tools createWithTools create parse callTool query
    pre bad rest hsplit hok hbad]
  refine ⟨rfl, ?_, rfl⟩
  show toolResultIds (Message.user query :: pre.flatMap (callPair parse callTool)) = _
  rw [toolResultIds_user_cons]
  exact toolResultIds_flatMap parse callTool pre hok

/-- C2 witness: the amended statement applied to the concrete run with a
malformed first call. -/
theorem c2_witness :
    (processQuery [sampleTool] cwtBad create0 parse0 callTool0 "hi").outcome =
      Except.error (PyErr.jsonDecodeError tcBad.arguments) ∧
    toolResultIds
      (processQuery [sampleTool] cwtBad create0 parse0 callTool0 "hi").trace.messages =
      ([] : List ToolCall).map (fun tc => tc.id) ∧
    (processQuery [sampleTool] cwtBad create0 parse0 callTool0 "hi").trace.dispatched =
      ([] : List ToolCall).flatMap (dispatchedOf parse0) :=
  c2_parse_failure_aborts [sampleTool] cwtBad create0 parse0 callTool0 "hi"
    [] tcBad [tcB] (by decide) (by decide) (by decide)

/-- C3: for every tool call whose remote execution reports an
application-level failure (`session.call_tool` returns a result with
`isError = true`), the tool-result message carrying that result's content
is still appended to the conversation, and every later call of the round
whose arguments parse is still dispatched. -/
theorem c3_tool_error_still_appended (tools : List ToolDescriptor)
    (createWithTools : List Message → List OpenAITool → Resp)
    (create : List Message → Resp) (parse : String → Option Args)
    (callTool : String → Args → Option CallToolResult) (query : String)
    (pre : List ToolCall) (tcE : ToolCall) (post : List ToolCall)
    (aE : Args) (rE : CallToolResult)
    (hsplit : (firstResp tools createWithTools query).toolCalls = pre ++ tcE :: post)
    (hok : ∀ tc ∈ (firstResp tools createWithTools query).toolCalls,
      callOk parse callTool tc = true)
    (hpE : parse tcE.arguments = some aE)
    (hcE : callTool tcE.name aE = some rE)
    (hErr : rE.isError = true) :
    Message.tool tcE.id tcE.name rE.content ∈
      (processQuery tools createWithTools create parse callTool query).trace.messages ∧
    ∀ tc ∈ post, ∀ a : Args, parse tc.arguments = some a →
      (tc.name, a) ∈
        (processQuery tools createWithTools create parse callTool query).trace.dispatched := by
  have hne : (firstResp tools createWithTools query).toolCalls ≠ [] := by
    rw [hsplit]
    exact List.append_ne_nil_of_right_ne_nil pre (List.cons_ne_nil tcE post)
  rw [processQuery_ok tools createWithTools create parse callTool query hne hok]
  constructor
  · show Message.tool tcE.id tcE.name rE.content ∈
      Message.user query ::
        (firstResp tools createWithTools query).toolCalls.flatMap (callPair parse callTool)
    refine List.mem_cons_of_mem _ ?_
    rw [List.mem_flatMap]
    refine ⟨tcE, ?_, ?_⟩
    · rw [hsplit]
      exact List.mem_append_right pre (List.mem_cons_self tcE post)
    · simp [callPair, hpE, hcE]
  · intro tc hm a ha
    show (tc.name, a) ∈
      (firstResp tools createWithTools query).toolCalls.flatMap (dispatchedOf parse)
    rw [List.mem_flatMap]
    refine ⟨tc, ?_, ?_⟩
    · rw [hsplit]
      exact List.mem_append_right pre (List.mem_cons_of_mem tcE hm)
    · simp [dispatchedOf, ha]

/-- C3 witness: the theorem applied to a concrete run whose first call
reports `isError = true` and whose second call still dispatches. -/
theorem c3_witness :
    Message.tool tcA.id tcA.name "tool failed" ∈
      (processQuery [sampleTool] cwtTwo create0 parse0 callToolErr "hi").trace.messages ∧
    (tcB.name, [("q", "argsB")]) ∈
      (processQuery [sampleTool] cwtTwo create0 parse0 callToolErr "hi").trace.dispatched := by
  have h := c3_tool_error_still_appended [sampleTool] cwtTwo create0 parse0 callToolErr "hi"
    [] tcA [tcB] [("q", "argsA")] { content := "tool failed", isError := true }
    (by decide) (by decide) (by decide) (by decide) rfl
  exact ⟨h.1, h.2 tcB (by decide) [("q", "argsB")] (by decide)⟩

end MCPExp

namespace Weather

theorem foldl_append_eq_map {α β : Type} (f : α → β) :
    ∀ (xs : List α) (acc : List β),
      xs.foldl (fun acc p => acc ++ [f p]) acc = acc ++ xs.map f
  | [], acc => by simp
  | x :: xs, acc => by
    rw [List.foldl_cons, foldl_append_eq_map f xs (acc ++ [f x]), List.map_cons]
    simp

/-- C10: for every successfully fetched forecast response, `get_forecast`
includes exactly the first at-most-5 formatted periods of the response,
in the order they appear, regardless of how many periods the response
contains. -/
theorem c10_at_most_five_periods (pointsResult : Option PointsData)
    (fetchForecast : String → Option ForecastData) (pd : PointsData) (fd : ForecastData)
    (hp : pointsResult = some pd)
    (hf : fetchForecast pd.properties.forecast = some fd) :
    get_forecast pointsResult fetchForecast =
      String.intercalate "\n---\n" ((fd.properties.periods.map formatPeriod).take 5) ∧
    ((fd.properties.periods.map formatPeriod).take 5).length ≤ 5 := by
  subst hp
  constructor
  · simp only [get_forecast, hf]
    rw [foldl_append_eq_map formatPeriod, List.nil_append, List.map_take]
  · rw [List.length_take]
    exact Nat.min_le_left _ _

/-- C10 witness: the theorem applied to a concrete seven-period forecast
response. -/
theorem c10_witness :
    get_forecast (some samplePoints) (fun _ => some sampleForecast) =
      String.intercalate "\n---\n"
        ((sampleForecast.properties.periods.map formatPeriod).take 5) ∧
    ((sampleForecast.properties.periods.map formatPeriod).take 5).length ≤ 5 :=
  c10_at_most_five_periods (some samplePoints) (fun _ => some sampleForecast)
    samplePoints sampleForecast rfl rfl

end Weather
